import Mathlib

/-!
Verification of the catalog-service read model (`model/version.go`) and of
the bootstrap / refresh-coordination glue (`cmd` package) against its
natural-language specification.

The database tables behind the raw SQL queries are embedded as lists of
rows; the two lookup functions are embedded as filters whose conditions
are the SQL `WHERE` clauses.  The `cmd` glue (`readConfig`, `run`,
`refresh`) is embedded as pure functions over explicit inputs standing
for the file system, the database connection, and the results of the
manager calls.
-/

namespace CatalogService

/-- A row of the `catalog` table: uniquely named catalog with an
environment scope (`"global"` or a specific environment id). -/
structure CatalogRow where
  id : Nat
  name : String
  environmentId : String
deriving DecidableEq, Repr

/-- A row of the `catalog_template` table (`TemplateModel`): owned by one
catalog, identified externally by its folder name. -/
structure TemplateRow where
  id : Nat
  catalogId : Nat
  folderName : String
deriving DecidableEq, Repr

/-- `model.Base`: the database-assigned surrogate key shared by all models. -/
structure Base where
  id : Nat
deriving DecidableEq, Repr

/-- `model.Version` (`model/version.go`): the scalar columns of the
`catalog_version` table.  The `Files`/`Questions` collections live in
their own tables and are never populated by the raw column scans of
`LookupVersionModel`/`LookupVersions`, so they are omitted from the row. -/
structure Version where
  environmentId : String
  templateId : Nat
  revision : Int
  version : String
  minimumRancherVersion : String
  maximumRancherVersion : String
  upgradeFrom : String
  readme : String
deriving DecidableEq, Repr

/-- `model.VersionModel`: `Base` plus the embedded `Version` columns. -/
structure VersionModel where
  base : Base
  version : Version
deriving DecidableEq, Repr

/-- The zero value of `model.Version` (what a Go `var versionModel
VersionModel` holds before any row is scanned into it). -/
def zeroVersion : Version :=
  { environmentId := "", templateId := 0, revision := 0, version := "",
    minimumRancherVersion := "", maximumRancherVersion := "",
    upgradeFrom := "", readme := "" }

/-- The zero value of `model.VersionModel`. -/
def zeroVersionModel : VersionModel :=
  { base := { id := 0 }, version := zeroVersion }

/-- The persisted state the two raw queries read: the three joined tables. -/
structure DBState where
  catalogs : List CatalogRow
  templates : List TemplateRow
  versions : List VersionModel
deriving DecidableEq, Repr

/-- The `WHERE` clause shared by the two raw queries in `model/version.go`
(without the revision condition): the version row is visible to the
requested environment or to `"global"`, and joins through a template row
with the requested folder name to a catalog row with the requested name.
The SQL cross join is embedded as an existential (`List.any`) over the
join partners. -/
def rowMatches (db : DBState) (environmentId catalog template : String)
    (vm : VersionModel) : Bool :=
  (vm.version.environmentId == environmentId || vm.version.environmentId == "global")
    && db.templates.any (fun t =>
        vm.version.templateId == t.id
          && db.catalogs.any (fun c => t.catalogId == c.id && c.name == catalog)
          && t.folderName == template)

/-- The `WHERE` clause of the `LookupVersionModel` query: `rowMatches`
plus `catalog_version.revision = ?`. -/
def versionRowMatches (db : DBState) (environmentId catalog template : String)
    (revision : Int) (vm : VersionModel) : Bool :=
  rowMatches db environmentId catalog template vm && vm.version.revision == revision

/-- `model.LookupVersionModel`: runs the raw query and scans the result
into a stack-allocated `VersionModel`.  `gorm`'s `Scan` into a struct
copies the first result row and leaves the struct at its zero value when
the result set is empty; the Go function always returns the address of
that struct, never `nil`. -/
def LookupVersionModel (db : DBState) (environmentId catalog template : String)
    (revision : Int) : VersionModel :=
  ((db.versions.filter (versionRowMatches db environmentId catalog template revision)).head?).getD
    zeroVersionModel

/-- `model.LookupVersions`: runs the raw query, scans all result rows, and
projects each `VersionModel` to its embedded `Version`. -/
def LookupVersions (db : DBState) (environmentId catalog template : String) :
    List Version :=
  (db.versions.filter (rowMatches db environmentId catalog template)).map
    (fun vm => vm.version)

/-- Modelled from the spec: the serving layer resolves the catalog and
template names before listing versions ("fails with NotFound only when
the catalog/template name itself does not resolve").  A name pair
resolves when some template row with that folder name belongs to some
catalog row with that catalog name. -/
def resolvesTemplate (db : DBState) (catalog template : String) : Bool :=
  db.templates.any (fun t =>
    t.folderName == template
      && db.catalogs.any (fun c => t.catalogId == c.id && c.name == catalog))

/-- The query-path error taxonomy of the spec. -/
inductive SvcError where
  | notFound
deriving DecidableEq, Repr

/-- Modelled from the spec: the Query Facade's `listVersions` operation
(the serving layer wrapping `model.LookupVersions` is not under `src/`).
Per the spec it fails with NotFound exactly when the catalog/template
name does not resolve, and otherwise returns the rows `LookupVersions`
produces (possibly the empty list). -/
def listVersionsSvc (db : DBState) (environmentId catalog template : String) :
    Except SvcError (List Version) :=
  if resolvesTemplate db catalog template then
    Except.ok (LookupVersions db environmentId catalog template)
  else
    Except.error SvcError.notFound

/-!
Bootstrap glue of the `cmd` package.  `readConfig` reads a JSON file and
unmarshals it into `map[string]map[string]manager.CatalogConfig`, then
returns the inner map at key `"catalogs"`.  Go's `encoding/json` is
embedded over a small JSON value type: unmarshalling `null` into any Go
value is a no-op (the value keeps its zero value), unmarshalling a
non-object into a map or struct is an error, unknown object keys are
ignored, and with duplicate keys the last occurrence wins.
-/

/-- A parsed JSON document. -/
inductive Json where
  | null
  | bool (b : Bool)
  | num (n : Int)
  | str (s : String)
  | arr (elems : List Json)
  | obj (fields : List (String × Json))

/-- Go-map semantics for a JSON object's field list: the last occurrence
of a key wins. -/
def lookupLast {α : Type} (fields : List (String × α)) (k : String) : Option α :=
  fields.foldl (fun acc kv => if kv.1 == k then some kv.2 else acc) none

/-- Modelled from the spec: `manager.CatalogConfig` (not under `src/`) is
the configured `{sourceLocator, environmentId}` pair of one catalog. -/
structure CatalogConfig where
  url : String
  environmentId : String
deriving DecidableEq, Repr

/-- Unmarshal one string-typed struct field: absent or `null` leaves the
zero value `""`; a non-string value is a type error. -/
def getStrField (fields : List (String × Json)) (k : String) : Option String :=
  match lookupLast fields k with
  | none => some ""
  | some Json.null => some ""
  | some (Json.str s) => some s
  | some _ => none

/-- Unmarshal a JSON value into a `manager.CatalogConfig` struct. -/
def unmarshalCatalogConfig : Json → Option CatalogConfig
  | Json.null => some { url := "", environmentId := "" }
  | Json.obj fields =>
      match getStrField fields "url", getStrField fields "environmentId" with
      | some u, some e => some { url := u, environmentId := e }
      | _, _ => none
  | _ => none

/-- A Go `map[string]manager.CatalogConfig` value: `none` is the nil map. -/
abbrev CatalogMap : Type := Option (List (String × CatalogConfig))

/-- Unmarshal a JSON value into a `map[string]CatalogConfig`:
`null` yields the nil map, an object unmarshals each field value. -/
def unmarshalCatalogMap : Json → Option CatalogMap
  | Json.null => some none
  | Json.obj fields =>
      match unmarshalCatalogMapFields fields with
      | some m => some (some m)
      | none => none
  | _ => none
where
  unmarshalCatalogMapFields :
      List (String × Json) → Option (List (String × CatalogConfig))
    | [] => some []
    | (k, v) :: rest =>
        match unmarshalCatalogConfig v, unmarshalCatalogMapFields rest with
        | some c, some cs => some ((k, c) :: cs)
        | _, _ => none

/-- Unmarshal the whole config document into the Go value
`map[string]map[string]manager.CatalogConfig` (`readConfig`'s local
`config` variable).  `null` leaves the outer map nil, embedded here as
the empty field list since only lookups observe it. -/
def unmarshalConfig : Json → Option (List (String × CatalogMap))
  | Json.null => some []
  | Json.obj fields => unmarshalConfigFields fields
  | _ => none
where
  unmarshalConfigFields :
      List (String × Json) → Option (List (String × CatalogMap))
    | [] => some []
    | (k, v) :: rest =>
        match unmarshalCatalogMap v, unmarshalConfigFields rest with
        | some m, some ms => some ((k, m) :: ms)
        | _, _ => none

/-- What `readConfig`'s two fallible steps can report. -/
inductive ConfigError where
  | fileReadError
  | invalidJsonError
  | shapeError
deriving DecidableEq, Repr

/-- The state of the configuration file `readConfig` is pointed at:
unreadable, readable but not valid JSON, or a parsed JSON document. -/
inductive ConfigFile where
  | unreadable
  | invalidJson
  | json (j : Json)

/-- `cmd.readConfig`: read the file, unmarshal it, and return
`config["catalogs"]` — a missing key or a `null` value both give the nil
map (`none`) with no error. -/
def readConfig : ConfigFile → Except ConfigError CatalogMap
  | ConfigFile.unreadable => Except.error ConfigError.fileReadError
  | ConfigFile.invalidJson => Except.error ConfigError.invalidJsonError
  | ConfigFile.json j =>
      match unmarshalConfig j with
      | none => Except.error ConfigError.shapeError
      | some config =>
          Except.ok (match lookupLast config "catalogs" with
            | some m => m
            | none => none)

/-- Where `cmd.run` ends up on its main control path. -/
inductive RunOutcome where
  | fatalConfig (e : ConfigError)
  | fatalDb
  | proceeds (config : CatalogMap) (validateOnly : Bool)
deriving DecidableEq, Repr

/-- `cmd.run`'s main path: a `readConfig` error is `log.Fatal` before
anything else; a database-open error is fatal next; otherwise the
process spawns the refresh goroutine and either blocks (validate-only)
or serves HTTP — both embedded as `proceeds`. -/
def run (file : ConfigFile) (dbOk : Bool) (validateOnly : Bool) : RunOutcome :=
  match readConfig file with
  | Except.error e => RunOutcome.fatalConfig e
  | Except.ok config =>
      if dbOk then RunOutcome.proceeds config validateOnly
      else RunOutcome.fatalDb

/-- The configured catalogs carried by a `CatalogMap` (a nil map has
none). -/
def configuredCatalogs (m : CatalogMap) : List (String × CatalogConfig) :=
  match m with
  | some entries => entries
  | none => []

/-!
The `refresh` goroutine (`part_000` lines 161–175): create the
configured catalogs, run one synchronous `RefreshAll` pass, then (in
normal mode) enter the ticker loop.  Both `manager` calls are embedded
by their returned `error` (`none` = nil).
-/

/-- Where the `refresh` goroutine's startup sequence ends up. -/
inductive StartupOutcome where
  | fatalCreate (e : String)
  | fatalRefresh (e : String)
  | exitZero
  | tickerLoop
deriving DecidableEq, Repr

/-- Modelled from the spec: `manager.RefreshAll` (not under `src/`) runs a
refresh for every configured catalog and returns an error precisely when
some catalog's refresh fails — the only way the spec's validate-only
fatality can reach `refresh`'s single `log.Fatalf` channel. -/
def refreshAllErr (catalogResults : List (Option String)) : Option String :=
  catalogResults.findSome? (fun r => r)

/-- The startup sequence of `cmd.refresh`: `log.Fatalf` on a
`CreateConfigCatalogs` error, `log.Fatalf` on an initial `RefreshAll`
error (checked before `validateOnly` is consulted), `os.Exit(0)` in
validate-only mode, otherwise fall into the ticker loop. -/
def refreshStartup (createErr : Option String) (initialRefreshErr : Option String)
    (validateOnly : Bool) : StartupOutcome :=
  match createErr with
  | some e => StartupOutcome.fatalCreate e
  | none =>
      match initialRefreshErr with
      | some e => StartupOutcome.fatalRefresh e
      | none =>
          if validateOnly then StartupOutcome.exitZero
          else StartupOutcome.tickerLoop

/-- The `cmd` package variable `refreshInterval` (`part_000` line 25).
It is declared with Go's zero value `0` and never assigned anywhere in
the package: `init` registers the `refresh-interval` flag with
`Int` (not `IntVar`), binding its value only to the viper key
`refresh_interval`, which no code reads. -/
def refreshInterval : Int := 0

/-- The tick period handed to `time.Tick` on `part_000` line 171:
`time.Duration(refreshInterval) * time.Second`, in nanoseconds. -/
def tickPeriod (intervalSeconds : Int) : Int := intervalSeconds * 1000000000

/-- Whether the ticker ever delivers a tick: `time.Tick(d)` returns a nil
channel when `d <= 0`, and `for range` over a nil channel blocks
forever, so the loop body never runs. -/
def tickerFires (periodNs : Int) : Bool := decide (0 < periodNs)

/-- The in-flight refresh attempts the coordinator has launched,
by catalog name (one list entry per running attempt). -/
structure TickerState where
  inFlight : List String
deriving DecidableEq, Repr

/-- The body of the ticker loop (`part_000` lines 171–174): on every
delivered tick the code runs `go m.RefreshAll()` unconditionally — it
consults no per-catalog busy state (the adjacent TODO comment records
the missing guard).  That `RefreshAll` launches an attempt for every
configured catalog is modelled from the spec (`manager` is not under
`src/`). -/
def onTick (configured : List String) (s : TickerState) : TickerState :=
  { inFlight := configured ++ s.inFlight }

/-! Concrete database states used to evaluate the embedded queries. -/

/-- An empty database. -/
def dbEmpty : DBState := { catalogs := [], templates := [], versions := [] }

/-- One catalog, one template, one version visible to `"env-A"`. -/
def dbOneVersion : DBState :=
  { catalogs := [{ id := 1, name := "c", environmentId := "global" }],
    templates := [{ id := 10, catalogId := 1, folderName := "f" }],
    versions := [{ base := { id := 100 },
                   version := { environmentId := "env-A", templateId := 10,
                                revision := 5, version := "1.0",
                                minimumRancherVersion := "", maximumRancherVersion := "",
                                upgradeFrom := "", readme := "" } }] }

/-- One catalog holding two distinct templates that share the folder name
`"f"`, each with a version at revision `5`.  Catalog names are unique and
no two version rows share a `(templateId, revision)` pair, yet both
version rows satisfy the `LookupVersionModel` query for
`("env-A", "c", "f", 5)`. -/
def dbDupFolder : DBState :=
  { catalogs := [{ id := 1, name := "c", environmentId := "global" }],
    templates := [{ id := 10, catalogId := 1, folderName := "f" },
                  { id := 11, catalogId := 1, folderName := "f" }],
    versions := [{ base := { id := 100 },
                   version := { environmentId := "global", templateId := 10,
                                revision := 5, version := "1.0",
                                minimumRancherVersion := "", maximumRancherVersion := "",
                                upgradeFrom := "", readme := "" } },
                 { base := { id := 101 },
                   version := { environmentId := "global", templateId := 11,
                                revision := 5, version := "1.0",
                                minimumRancherVersion := "", maximumRancherVersion := "",
                                upgradeFrom := "", readme := "" } }] }

/-- One catalog and one template that resolve, with no versions at all. -/
def dbNoVersions : DBState :=
  { catalogs := [{ id := 1, name := "c", environmentId := "global" }],
    templates := [{ id := 10, catalogId := 1, folderName := "t" }],
    versions := [] }

/-- A database persisting a fully zero-valued version row that the query
`("", "c", "t", 0)` matches. -/
def dbZeroRow : DBState :=
  { catalogs := [{ id := 0, name := "c", environmentId := "" }],
    templates := [{ id := 0, catalogId := 0, folderName := "t" }],
    versions := [zeroVersionModel] }

/-! Theorems. -/

/-- C3: for every environmentId, catalog name and template name,
`LookupVersions` returns exactly the persisted Versions of that
catalog's template whose environment id equals the requested
environmentId or `"global"` — in particular it returns no Version scoped
to any other environment. -/
theorem C3_listVersions_environment_scoping (db : DBState)
    (environmentId catalog template : String) (v : Version) :
    v ∈ LookupVersions db environmentId catalog template ↔
      ∃ vm ∈ db.versions, vm.version = v
        ∧ (v.environmentId = environmentId ∨ v.environmentId = "global")
        ∧ ∃ t ∈ db.templates, v.templateId = t.id ∧ t.folderName = template
            ∧ ∃ c ∈ db.catalogs, t.catalogId = c.id ∧ c.name = catalog := by
  simp only [LookupVersions, List.mem_map, List.mem_filter, rowMatches,
    Bool.and_eq_true, Bool.or_eq_true, beq_iff_eq, List.any_eq_true]
  constructor
  · rintro ⟨vm, ⟨hmem, henv, t, ht, ⟨htid, c, hc, hcid, hname⟩, hfolder⟩, rfl⟩
    exact ⟨vm, hmem, rfl, henv, t, ht, htid, hfolder, c, hc, hcid, hname⟩
  · rintro ⟨vm, hmem, rfl, henv, t, ht, htid, hfolder, c, hc, hcid, hname⟩
    exact ⟨vm, ⟨hmem, henv, t, ht, ⟨htid, c, hc, hcid, hname⟩, hfolder⟩, rfl⟩

/-- C5: whenever the requested catalog or template name does not resolve,
`LookupVersionModel` returns the zero-valued record — the query path
surfaces NotFound as an absent result (the embedded function is total,
so no crash is possible). -/
theorem C5_getVersion_notfound_absent (db : DBState)
    (environmentId catalog template : String) (revision : Int)
    (h : resolvesTemplate db catalog template = false) :
    LookupVersionModel db environmentId catalog template revision = zeroVersionModel := by
  unfold LookupVersionModel
  have hempty :
      db.versions.filter (versionRowMatches db environmentId catalog template revision)
        = [] := by
    apply List.eq_nil_iff_forall_not_mem.mpr
    intro vm hvm
    have h2 := (List.mem_filter.mp hvm).2
    simp only [versionRowMatches, rowMatches, Bool.and_eq_true, Bool.or_eq_true,
      beq_iff_eq, List.any_eq_true] at h2
    obtain ⟨⟨henv, t, ht, ⟨htid, c, hc, hcid, hname⟩, hfolder⟩, hrev⟩ := h2
    have hres : resolvesTemplate db catalog template = true := by
      simp only [resolvesTemplate, List.any_eq_true, Bool.and_eq_true, beq_iff_eq]
      exact ⟨t, ht, hfolder, c, hc, hcid, hname⟩
    rw [h] at hres
    exact Bool.false_ne_true hres
  rw [hempty]
  rfl

/-- C5 witness: on the empty database, the names do not resolve and the
lookup returns the zero-valued record. -/
theorem C5_getVersion_notfound_absent_witness :
    LookupVersionModel dbEmpty "e" "c" "t" 0 = zeroVersionModel :=
  C5_getVersion_notfound_absent dbEmpty "e" "c" "t" 0 (by decide)

/-- C10: `LookupVersionModel` is a total function into `VersionModel`
(the Go code always returns the non-nil address of its local struct);
when no persisted row matches the query it returns the zero-valued
record, and a query against a database persisting a fully zero-valued
matching row returns the very same record as a query matching nothing —
at this interface an absent Version is indistinguishable from a
zero-valued one. -/
theorem C10_lookupVersionModel_zero_value :
    (∀ (db : DBState) (environmentId catalog template : String) (revision : Int),
        db.versions.filter (versionRowMatches db environmentId catalog template revision)
          = [] →
        LookupVersionModel db environmentId catalog template revision = zeroVersionModel)
    ∧ LookupVersionModel dbZeroRow "" "c" "t" 0 = LookupVersionModel dbEmpty "" "c" "t" 0 := by
  constructor
  · intro db environmentId catalog template revision h
    unfold LookupVersionModel
    rw [h]
    rfl
  · decide

/-- C10 witness: no row of the empty database matches, and the lookup
returns the zero-valued record. -/
theorem C10_lookupVersionModel_zero_value_witness :
    LookupVersionModel dbEmpty "x" "c" "t" 3 = zeroVersionModel :=
  C10_lookupVersionModel_zero_value.1 dbEmpty "x" "c" "t" 3 (by decide)

/-- C4: the `listVersions` operation fails with NotFound exactly when the
catalog/template name does not resolve; when the name resolves but no
version is visible it returns the empty list, not an error. -/
theorem C4_listVersions_empty_not_error (db : DBState)
    (environmentId catalog template : String) :
    (listVersionsSvc db environmentId catalog template = Except.error SvcError.notFound
        ↔ resolvesTemplate db catalog template = false)
    ∧ (resolvesTemplate db catalog template = true →
        LookupVersions db environmentId catalog template = [] →
        listVersionsSvc db environmentId catalog template = Except.ok []) := by
  constructor
  · unfold listVersionsSvc
    cases hres : resolvesTemplate db catalog template <;> simp [hres]
  · intro hres hempty
    unfold listVersionsSvc
    rw [hres]
    simp [hempty]

/-- C4 witness: on a database where catalog `"c"` and template `"t"`
resolve but no version exists, the operation returns the empty list. -/
theorem C4_listVersions_empty_not_error_witness :
    listVersionsSvc dbNoVersions "e" "c" "t" = Except.ok [] :=
  (C4_listVersions_empty_not_error dbNoVersions "e" "c" "t").2 (by decide) (by decide)

/-- If any two elements kept by the filter are unrelated by `R` while the
list is pairwise `R`-related, the filter keeps at most one element. -/
theorem filter_length_le_one {α : Type} {R : α → α → Prop} {p : α → Bool} :
    ∀ l : List α, l.Pairwise R → (∀ a b, p a = true → p b = true → ¬ R a b) →
      (l.filter p).length ≤ 1
  | [], _, _ => by simp
  | a :: l, h, hp => by
      rcases List.pairwise_cons.mp h with ⟨hall, htail⟩
      by_cases hpa : p a = true
      · have hnil : l.filter p = [] := by
          apply List.eq_nil_iff_forall_not_mem.mpr
          intro b hb
          rcases List.mem_filter.mp hb with ⟨hbl, hpb⟩
          exact hp a b hpa hpb (hall b hbl)
        simp [List.filter_cons, hpa, hnil]
      · have hrec := filter_length_le_one l htail hp
        simpa [List.filter_cons, hpa] using hrec

/-- C6 counterexample: a database whose catalog names are unique and
whose version rows never share a `(templateId, revision)` pair, on which
two distinct persisted version rows nevertheless match the
`getVersion` query `("env-A", "c", "f", 5)` — two templates of the
catalog share the folder name `"f"`, which the claim's premises do not
exclude. -/
theorem C6_at_most_one_row_counterexample :
    (∀ c1 ∈ dbDupFolder.catalogs, ∀ c2 ∈ dbDupFolder.catalogs,
        c1.name = c2.name → c1 = c2)
    ∧ List.Pairwise
        (fun v1 v2 : VersionModel =>
          v1.version.templateId ≠ v2.version.templateId
            ∨ v1.version.revision ≠ v2.version.revision)
        dbDupFolder.versions
    ∧ 1 < (dbDupFolder.versions.filter
        (versionRowMatches dbDupFolder "env-A" "c" "f" 5)).length := by
  refine ⟨by decide, ?_, by decide⟩
  simp [dbDupFolder, List.pairwise_cons]

/-- C6 (amended): given additionally that template folder names are
unique within a catalog, at most one persisted version row matches the
`getVersion` query. -/
theorem C6_at_most_one_row_amended (db : DBState)
    (environmentId catalog template : String) (revision : Int)
    (hcat : ∀ c1 ∈ db.catalogs, ∀ c2 ∈ db.catalogs, c1.name = c2.name → c1.id = c2.id)
    (htmpl : ∀ t1 ∈ db.templates, ∀ t2 ∈ db.templates,
        t1.catalogId = t2.catalogId → t1.folderName = t2.folderName → t1.id = t2.id)
    (hver : List.Pairwise
        (fun v1 v2 : VersionModel =>
          v1.version.templateId ≠ v2.version.templateId
            ∨ v1.version.revision ≠ v2.version.revision) db.versions) :
    (db.versions.filter
      (versionRowMatches db environmentId catalog template revision)).length ≤ 1 := by
  apply filter_length_le_one db.versions hver
  intro a b hpa hpb hR
  simp only [versionRowMatches, rowMatches, Bool.and_eq_true, Bool.or_eq_true,
    beq_iff_eq, List.any_eq_true] at hpa hpb
  obtain ⟨⟨henva, ta, hta, ⟨htida, ca, hca, hcida, hnamea⟩, hfoldera⟩, hreva⟩ := hpa
  obtain ⟨⟨henvb, tb, htb, ⟨htidb, cb, hcb, hcidb, hnameb⟩, hfolderb⟩, hrevb⟩ := hpb
  have hcid : ca.id = cb.id := hcat ca hca cb hcb (hnamea.trans hnameb.symm)
  have htcat : ta.catalogId = tb.catalogId := by rw [hcida, hcidb, hcid]
  have htid : ta.id = tb.id := htmpl ta hta tb htb htcat (hfoldera.trans hfolderb.symm)
  rcases hR with h | h
  · exact h (by rw [htida, htidb, htid])
  · exact h (by rw [hreva, hrevb])

/-- C6 witness: on a well-formed database the amended bound holds. -/
theorem C6_at_most_one_row_amended_witness :
    (dbOneVersion.versions.filter
      (versionRowMatches dbOneVersion "env-A" "c" "f" 5)).length ≤ 1 :=
  C6_at_most_one_row_amended dbOneVersion "env-A" "c" "f" 5
    (by decide) (by decide) (by simp [dbOneVersion])

/-- Folding the last-occurrence lookup over entries whose keys all differ
from `k` leaves the accumulator unchanged. -/
theorem foldl_lookup_acc {α : Type} (k : String) :
    ∀ (l : List (String × α)) (acc : Option α), (∀ kv ∈ l, kv.1 ≠ k) →
      l.foldl (fun acc kv => if kv.1 == k then some kv.2 else acc) acc = acc
  | [], _, _ => rfl
  | kv :: l, acc, h => by
      have hk : (kv.1 == k) = false :=
        beq_eq_false_iff_ne.mpr (h kv (List.mem_cons_self kv l))
      rw [List.foldl_cons, hk]
      simp only [Bool.false_eq_true, if_false]
      exact foldl_lookup_acc k l acc (fun kv' hkv' => h kv' (List.mem_cons_of_mem _ hkv'))

/-- `lookupLast` misses when no entry carries the key. -/
theorem lookupLast_eq_none {α : Type} (l : List (String × α)) (k : String)
    (h : ∀ kv ∈ l, kv.1 ≠ k) : lookupLast l k = none :=
  foldl_lookup_acc k l none h

/-- Unmarshalling the top-level config object preserves its keys. -/
theorem unmarshalConfigFields_keys (fields : List (String × Json)) :
    ∀ top : List (String × CatalogMap),
      unmarshalConfig.unmarshalConfigFields fields = some top →
      top.map Prod.fst = fields.map Prod.fst := by
  induction fields with
  | nil =>
      intro top h
      simp only [unmarshalConfig.unmarshalConfigFields, Option.some.injEq] at h
      subst h
      rfl
  | cons kv rest ih =>
      intro top h
      obtain ⟨k, v⟩ := kv
      simp only [unmarshalConfig.unmarshalConfigFields] at h
      cases hm : unmarshalCatalogMap v <;> rw [hm] at h
      · simp at h
      cases hr : unmarshalConfig.unmarshalConfigFields rest <;> rw [hr] at h
      · simp at h
      · rename_i m ms
        simp only [Option.some.injEq] at h
        subst h
        simp only [List.map_cons]
        rw [ih ms hr]

/-- C8: an unreadable config file, a file that is not valid JSON, and a
JSON document that does not unmarshal into the expected catalog mapping
each make `run` terminate with a fatal configuration error — the outcome
is `fatalConfig`, reached before the database is opened and before
anything is served. -/
theorem C8_config_error_fatal (dbOk validateOnly : Bool) :
    run ConfigFile.unreadable dbOk validateOnly
        = RunOutcome.fatalConfig ConfigError.fileReadError
    ∧ run ConfigFile.invalidJson dbOk validateOnly
        = RunOutcome.fatalConfig ConfigError.invalidJsonError
    ∧ ∀ j : Json, unmarshalConfig j = none →
        run (ConfigFile.json j) dbOk validateOnly
          = RunOutcome.fatalConfig ConfigError.shapeError := by
  refine ⟨rfl, rfl, ?_⟩
  intro j hj
  simp only [run, readConfig, hj]

/-- C8 witness: a config file holding the JSON string `"nope"` is fatal. -/
theorem C8_config_error_fatal_witness :
    run (ConfigFile.json (Json.str "nope")) true false
      = RunOutcome.fatalConfig ConfigError.shapeError :=
  (C8_config_error_fatal true false).2.2 (Json.str "nope") rfl

/-- C9: a config file that is a well-formed catalog mapping without a
`"catalogs"` key makes `readConfig` return the nil mapping with no
error, so process start proceeds with zero configured catalogs instead
of failing with a configuration error. -/
theorem C9_missing_catalogs_key_ok (fields : List (String × Json))
    (top : List (String × CatalogMap)) (validateOnly : Bool)
    (hdec : unmarshalConfig (Json.obj fields) = some top)
    (hnokey : ∀ kv ∈ fields, kv.1 ≠ "catalogs") :
    readConfig (ConfigFile.json (Json.obj fields)) = Except.ok none
    ∧ run (ConfigFile.json (Json.obj fields)) true validateOnly
        = RunOutcome.proceeds none validateOnly
    ∧ configuredCatalogs none = [] := by
  have hdec' : unmarshalConfig.unmarshalConfigFields fields = some top := by
    simpa only [unmarshalConfig] using hdec
  have htop : lookupLast top "catalogs" = none := by
    apply lookupLast_eq_none
    intro kv hkv
    have hkeys := unmarshalConfigFields_keys fields top hdec'
    have hmem : kv.1 ∈ fields.map Prod.fst := by
      rw [← hkeys]
      exact List.mem_map_of_mem Prod.fst hkv
    rcases List.mem_map.mp hmem with ⟨kv', hkv', hfst⟩
    rw [← hfst]
    exact hnokey kv' hkv'
  have h1 : readConfig (ConfigFile.json (Json.obj fields)) = Except.ok none := by
    simp only [readConfig, hdec, htop]
  refine ⟨h1, ?_, rfl⟩
  simp only [run, h1, if_true]

/-- C9 witness: the empty JSON object `\x7b\x7d` has no `"catalogs"` key
and starts the process with zero configured catalogs. -/
theorem C9_missing_catalogs_key_ok_witness :
    readConfig (ConfigFile.json (Json.obj [])) = Except.ok none
    ∧ run (ConfigFile.json (Json.obj [])) true false
        = RunOutcome.proceeds none false
    ∧ configuredCatalogs none = [] :=
  C9_missing_catalogs_key_ok [] [] false rfl (by simp)

/-- C2 counterexample: with a catalog failing the initial refresh pass in
normal (non-validate) mode, the `refresh` goroutine's startup sequence
ends in `log.Fatalf` — the process does not continue into the ticker
loop, contrary to the claim that such a failure is fatal only in
validate-only mode. -/
theorem C2_initial_failure_counterexample :
    refreshStartup none (refreshAllErr [some "catalog refresh failed"]) false
        = StartupOutcome.fatalRefresh "catalog refresh failed"
    ∧ refreshStartup none (refreshAllErr [some "catalog refresh failed"]) false
        ≠ StartupOutcome.tickerLoop := by
  exact ⟨rfl, by decide⟩

/-- C2 (amended): an error reported by the initial `RefreshAll` pass is
fatal to the whole process in normal mode exactly as in validate-only
mode — the `log.Fatalf` call precedes the `validateOnly` check, so the
mode is never consulted on failure. -/
theorem C2_initial_failure_amended (e : String) (validateOnly : Bool) :
    refreshStartup none (some e) validateOnly = StartupOutcome.fatalRefresh e := rfl

/-- C1: the ticker loop body runs `go m.RefreshAll()` without consulting
any per-catalog busy state (the source's own TODO comment records the
missing guard): a tick that fires while catalog `"X"`'s refresh is still
in flight launches a second concurrent refresh attempt of `"X"` instead
of skipping it. -/
theorem C1_tick_does_not_skip :
    ((onTick ["X"] { inFlight := ["X"] }).inFlight.count "X") = 2 := by decide

/-- C7: the `refreshInterval` package variable is never assigned, so the
ticker period is `time.Duration(0)`, for which `time.Tick` returns a nil
channel — the periodic timer never fires at all, and no tick ever
launches a refresh. -/
theorem C7_ticker_never_fires :
    tickPeriod refreshInterval = 0
    ∧ tickerFires (tickPeriod refreshInterval) = false := by decide

end CatalogService
